import Mathlib

/-!
Shallow embedding of grafana-threema-forwarder (main.go).

The program is a Grafana webhook to Threema relay: an HTTP handler decodes a
JSON alert, optionally fetches an attached image, composes a text message and
pushes an alert value on a channel; a background publisher goroutine drains
the channel, connecting to the Threema network once per burst and fanning each
alert out to the configured recipients.

External collaborators (JSON decoding, HTTP image fetch, the Threema session)
are modelled as function parameters; the control flow and string composition
are translated line by line from main.go.
-/

namespace GTF

/-- One entry of the evalMatches list of a Grafana notification
(main.go lines 79-82). -/
structure Match where
  metric : String
  value : Float

/-- The decoded Grafana webhook event (main.go lines 73-83).
`image` is the imageUrl field, `link` the ruleUrl field. -/
structure Event where
  state : String
  title : String
  message : String
  image : String
  link : String
  evalMatches : List Match

/-- alert is a helper struct to feed alerts over a channel to the publisher
(main.go lines 142-145). Bytes are modelled as List Nat. The Go nil slice and
the empty slice are both modelled as []. -/
structure alert where
  message : String
  image : List Nat
deriving DecidableEq, Repr

/-- Model of the Go format verb used at main.go line 125 for a float with two
decimal places (rounding half away from zero; only the shape matters here, no
claim evaluates it). -/
def fmt2 (v : Float) : String :=
  let sign := if v < 0.0 then "-" else ""
  let a := if v < 0.0 then -v else v
  let c := ((a * 100.0) + 0.5).floor.toUInt64.toNat
  sign ++ toString (c / 100) ++ "." ++ (if c % 100 < 10 then "0" else "") ++ toString (c % 100)

/-- The metric line built for one match (main.go line 125). -/
def lineOf (it : Match) : String :=
  "*" ++ it.metric ++ "*: _" ++ fmt2 it.value ++ "_\n"

/-- Model of strings.HasPrefix: character-level prefix test, which agrees
with the byte-level Go test on UTF-8 strings. -/
def strStartsWith (s p : String) : Bool :=
  p.data.isPrefixOf s.data

/-- Model of the Go byte slice title[n:] under a guard that the first n bytes
are ASCII: dropping n characters. -/
def strDrop (s : String) (n : Nat) : String :=
  ⟨s.data.drop n⟩

/-- Model of strings.Split(s, ","): the comma-separated pieces of s; on the
empty string this is [""], never []. -/
def splitComma (s : String) : List String :=
  (s.data.splitOn ',').map String.mk

/-- The switch on event.State (main.go lines 103-117): picks the icon and
mutates the title, removing the recognized bracketed state keyword when the
title begins with it. Byte slicing title[10:] and title[4:] equals dropping
10 resp. 4 characters because the guard ensures an ASCII prefix. The ok icon
is U+2618 followed by the variation selector U+FE0F, exactly the bytes of the
source literal. -/
def stateIcon (state title : String) : String × String :=
  if state = "alerting" then
    ("🔥", if strStartsWith title "[Alerting]" then strDrop title 10 else title)
  else if state = "ok" then
    ("☘️", if strStartsWith title "[OK]" then strDrop title 4 else title)
  else
    (state, title)

/-- Message composition (main.go lines 102-130), given the image fetch error
if any: header line, optional attach-failure notice, body, one line per
metric match, a separating newline when matches exist, then the rule link. -/
def composeMessage (ev : Event) (imageErr : Option String) : String :=
  let (icon, title) := stateIcon ev.state ev.title
  let m1 := "*" ++ icon ++ " " ++ title ++ "*\n\n"
  let m2 := match imageErr with
    | some e => m1 ++ "Failed to attach image: " ++ e ++ "\n\n"
    | none => m1
  let m3 := m2 ++ ev.message ++ "\n\n"
  let m4 := ev.evalMatches.foldl (fun m it => m ++ lineOf it) m3
  let m5 := if ev.evalMatches.length > 0 then m4 ++ "\n" else m4
  m5 ++ ev.link

/-- Outcome of the image download at main.go lines 93-101, as exposed by the
Go standard library: either http.Get itself fails, or it yields a body whose
read via ioutil.ReadAll returns some bytes (possibly partial) and an optional
read error. -/
inductive GetOutcome where
  | getErr (e : String)
  | gotBody (bytes : List Nat) (readErr : Option String)

/-- The image and imageErr variables after lines 88-101: on a Get error the
image stays nil and the error is kept; otherwise image and imageErr are the
two results of ReadAll. -/
def fetchImage (g : String → GetOutcome) (url : String) : List Nat × Option String :=
  match g url with
  | .getErr e => ([], some e)
  | .gotBody bs re => (bs, re)

/-- The alert value built by the handler for a decoded event
(main.go lines 88-136). -/
def handlerAlert (g : String → GetOutcome) (ev : Event) : alert :=
  let fetched := if ev.image.length ≠ 0 then fetchImage g ev.image else ([], none)
  { message := composeMessage ev fetched.2, image := fetched.1 }

/-- Observable actions of the HTTP handler: write a response, or push an
alert on the channel. -/
inductive HAct where
  | respond (status : Nat) (body : String)
  | enqueue (a : alert)
deriving DecidableEq, Repr

/-- The HTTP handler closure (main.go lines 71-137). On a decode error it
responds 400 with the error text (http.Error appends a newline) and returns
without enqueueing; otherwise it builds the alert, pushes it, and the
response is the implicit 200 with empty body written by net/http when the
handler returns. -/
def forwarderHandler (decode : String → Except String Event)
    (g : String → GetOutcome) (body : String) : List HAct :=
  match decode body with
  | .error e => [.respond 400 (e ++ "\n")]
  | .ok ev => [.enqueue (handlerAlert g ev), .respond 200 ""]

/-- Capacity of the alerts channel: make(chan *alert) at main.go line 66
takes no capacity argument, so the channel is unbuffered. -/
def alertsChanCap : Nat := 0

/-- Model of the Go channel send semantics: a send completes without blocking
exactly when the buffer has free space or a receiver is already waiting on
the channel. On an unbuffered channel this degenerates to the rendezvous
rule. -/
def sendCompletesImmediately (cap bufLen : Nat) (receiverWaiting : Bool) : Bool :=
  decide (bufLen < cap) || receiverWaiting

/-- Observable actions of the publisher goroutine against the Threema
session. -/
inductive Ev where
  | connect
  | connectFail
  | sendText (rcpt : String) (msg : String) (ok : Bool)
  | sendImage (rcpt : String) (img : List Nat) (msg : String) (ok : Bool)
  | close
deriving DecidableEq, Repr

/-- Recipient of a send event, if the event is a send. -/
def Ev.sendToOf : Ev → Option String
  | .sendText rcpt _ _ => some rcpt
  | .sendImage rcpt _ _ _ => some rcpt
  | _ => none

/-- Message text of a send event, if the event is a send (for an image send
this is the caption). -/
def Ev.sendMsgOf : Ev → Option String
  | .sendText _ m _ => some m
  | .sendImage _ _ m _ => some m
  | _ => none

/-- Image bytes of an image send event. -/
def Ev.sendImgOf : Ev → Option (List Nat)
  | .sendImage _ img _ _ => some img
  | _ => none

/-- Whether the event is a send of either kind. -/
def Ev.isSend : Ev → Bool
  | .sendText _ _ _ => true
  | .sendImage _ _ _ _ => true
  | _ => false

/-- Whether the event is an image send. -/
def Ev.isSendImage : Ev → Bool
  | .sendImage _ _ _ _ => true
  | _ => false

/-- The send performed for one recipient (main.go lines 168-178): an image
send when the alert carries a non-empty image, a text send otherwise; the
outcome flag records whether the session call returned an error. -/
def sendEv (a : alert) (rcpt : String) (ok : Bool) : Ev :=
  if a.image.length > 0 then .sendImage rcpt a.image a.message ok
  else .sendText rcpt a.message ok

/-- The inner recipient loop (main.go lines 166-180): one send attempt per
configured recipient, in list order; a failed send is logged and the loop
moves to the next recipient. The Nat argument counts send attempts and
indexes the outcome oracle. -/
def sendToRecipients (sendOk : Nat → Bool) : Nat → List String → alert → List Ev × Nat
  | n, [], _ => ([], n)
  | n, rcpt :: rest, a =>
    let e := sendEv a rcpt (sendOk n)
    let r := sendToRecipients sendOk (n + 1) rest a
    (e :: r.1, r.2)

/-- The drain loop (main.go lines 164-189): send the current alert to all
recipients, then non-blockingly poll the channel; when another alert is
already queued continue with it on the same session, otherwise close the
session. The queue list holds the alerts that further channel receives will
yield. -/
def drainAlerts (sendOk : Nat → Bool) (tos : List String) :
    Nat → alert → List alert → List Ev × Nat
  | n, a, [] =>
    let r := sendToRecipients sendOk n tos a
    (r.1 ++ [.close], r.2)
  | n, a, b :: rest =>
    let r := sendToRecipients sendOk n tos a
    let r2 := drainAlerts sendOk tos r.2 b rest
    (r.1 ++ r2.1, r2.2)

/-- The publisher goroutine (main.go lines 151-191) run against a queue of
alerts that successive channel receives will yield (no further arrivals are
modelled). Blocks for an alert; a failed connect drops exactly that alert and
returns to waiting; a successful connect drains the whole queue on one
session. The two Nat arguments index the connect and send outcome oracles. -/
def publisher (connOk sendOk : Nat → Bool) (tos : List String) :
    Nat → Nat → List alert → List Ev
  | _, _, [] => []
  | cn, sn, a :: rest =>
    if connOk cn then
      .connect :: (drainAlerts sendOk tos sn a rest).1
    else
      .connectFail :: publisher connOk sendOk tos (cn + 1) sn rest

/-- Result of the startup sequence: either a call to log.Fatalf (the process
exits) or the point at main.go lines 66-138 where the publisher is started
and the HTTP route begins serving. -/
inductive StartupResult where
  | fatal (msg : String)
  | serving (tos : List String)
deriving DecidableEq, Repr

/-- The trust loop at main.go lines 60-64, with the external id.Trust call a
parameter. -/
def trustAll (trust : String → String → Except String Unit) :
    List (String × String) → Except String Unit
  | [] => .ok ()
  | (rcpt, key) :: rest =>
    match trust rcpt key with
    | .error e => .error e
    | .ok _ => trustAll trust rest

/-- The startup sequence of forwarder (main.go lines 43-67): load the
identity, split the recipient flags on commas, check the recipient list is
non-empty and matches the key list in length, trust every recipient, then
start serving. Every log.Fatalf becomes a fatal result. -/
def forwarderStartup (identify : Except String Unit)
    (trust : String → String → Except String Unit)
    (toFlag pkFlag : String) : StartupResult :=
  match identify with
  | .error e => .fatal ("Failed to load sender identity: " ++ e)
  | .ok _ =>
    let tos := splitComma toFlag
    let keys := splitComma pkFlag
    if tos.length = 0 then .fatal "No recpient IDs provided"
    else if tos.length ≠ keys.length then .fatal "Mismatchine recipient IDs and pubkeys"
    else match trustAll trust (tos.zip keys) with
      | .error e => .fatal ("Failed to add recipient as contact: " ++ e)
      | .ok _ => .serving tos

/-! Derived decompositions of the composed message, used to state where the
attach-failure notice sits inside the text. -/

/-- The header line of the composed message. -/
def headerOf (ev : Event) : String :=
  "*" ++ (stateIcon ev.state ev.title).1 ++ " " ++ (stateIcon ev.state ev.title).2 ++ "*\n\n"

/-- The attach-failure notice inserted after the header, empty when the fetch
did not fail. -/
def noticeOf : Option String → String
  | none => ""
  | some e => "Failed to attach image: " ++ e ++ "\n\n"

/-- Concatenation of the metric lines. -/
def matchLines : List Match → String
  | [] => ""
  | it :: rest => lineOf it ++ matchLines rest

/-- Everything of the composed message after the optional notice. -/
def tailOf (ev : Event) : String :=
  ev.message ++ "\n\n" ++ matchLines ev.evalMatches ++
    (if ev.evalMatches.length > 0 then "\n" else "") ++ ev.link

theorem str_append_assoc (a b c : String) : a ++ b ++ c = a ++ (b ++ c) := by
  apply String.ext
  simp [String.data_append, List.append_assoc]

theorem str_append_empty (a : String) : a ++ "" = a := by
  apply String.ext
  simp [String.data_append]

theorem str_empty_append (a : String) : "" ++ a = a := by
  cases a; rfl

theorem foldl_lineOf (ms : List Match) (x : String) :
    ms.foldl (fun m it => m ++ lineOf it) x = x ++ matchLines ms := by
  induction ms generalizing x with
  | nil => simp [matchLines, str_append_empty]
  | cons it rest ih =>
    simp only [List.foldl_cons, matchLines]
    rw [ih, str_append_assoc]

theorem composeMessage_decomp (ev : Event) (ie : Option String) :
    composeMessage ev ie = headerOf ev ++ (noticeOf ie ++ tailOf ev) := by
  unfold composeMessage headerOf tailOf
  rcases hsi : stateIcon ev.state ev.title with ⟨ic, ti⟩
  simp only [hsi, foldl_lineOf]
  cases ie <;>
    by_cases h : ev.evalMatches.length > 0 <;>
      simp only [noticeOf, h, if_true, if_false, reduceIte, str_append_assoc,
        str_append_empty, str_empty_append]

/-! Basic facts about the per-recipient send loop. -/

theorem sendEv_sendToOf (a : alert) (rcpt : String) (ok : Bool) :
    (sendEv a rcpt ok).sendToOf = some rcpt := by
  unfold sendEv; split <;> rfl

theorem sendEv_sendMsgOf (a : alert) (rcpt : String) (ok : Bool) :
    (sendEv a rcpt ok).sendMsgOf = some a.message := by
  unfold sendEv; split <;> rfl

theorem sendEv_isSend (a : alert) (rcpt : String) (ok : Bool) :
    (sendEv a rcpt ok).isSend = true := by
  unfold sendEv; split <;> rfl

theorem sendEv_ne_close (a : alert) (rcpt : String) (ok : Bool) :
    sendEv a rcpt ok ≠ Ev.close := by
  unfold sendEv; split <;> simp

theorem sendToRecipients_map_to (f : Nat → Bool) (tos : List String) (a : alert) :
    ∀ n, ((sendToRecipients f n tos a).1).map Ev.sendToOf = tos.map some := by
  induction tos with
  | nil => intro n; rfl
  | cons rcpt rest ih =>
    intro n
    simp only [sendToRecipients, List.map_cons, sendEv_sendToOf, ih]

theorem sendToRecipients_length (f : Nat → Bool) (tos : List String) (a : alert) :
    ∀ n, ((sendToRecipients f n tos a).1).length = tos.length := by
  induction tos with
  | nil => intro n; rfl
  | cons rcpt rest ih =>
    intro n
    simp only [sendToRecipients, List.length_cons, ih]

theorem sendToRecipients_snd (f : Nat → Bool) (tos : List String) (a : alert) :
    ∀ n, (sendToRecipients f n tos a).2 = n + tos.length := by
  induction tos with
  | nil => intro n; simp [sendToRecipients]
  | cons rcpt rest ih =>
    intro n
    simp only [sendToRecipients, ih, List.length_cons]
    omega

theorem mem_sendToRecipients {f : Nat → Bool} {tos : List String} {a : alert} {e : Ev} :
    ∀ {n}, e ∈ (sendToRecipients f n tos a).1 →
      ∃ rcpt ok, rcpt ∈ tos ∧ e = sendEv a rcpt ok := by
  induction tos with
  | nil => intro n h; simp [sendToRecipients] at h
  | cons rcpt rest ih =>
    intro n h
    simp only [sendToRecipients, List.mem_cons] at h
    rcases h with h | h
    · exact ⟨rcpt, f n, List.mem_cons_self _ _, h⟩
    · rcases ih h with ⟨r, ok, hr, he⟩
      exact ⟨r, ok, List.mem_cons_of_mem _ hr, he⟩

theorem sendToRecipients_const_true (tos : List String) (a : alert) :
    ∀ n, sendToRecipients (fun _ => true) n tos a =
      (tos.map (fun rcpt => sendEv a rcpt true), n + tos.length) := by
  induction tos with
  | nil => intro n; simp [sendToRecipients]
  | cons rcpt rest ih =>
    intro n
    simp only [sendToRecipients, ih, List.map_cons, List.length_cons]
    refine Prod.ext rfl ?_
    simp; omega

/-- The icon and title the switch produces for the alerting state: the icon
is the fire emoji and the title loses a leading "[Alerting]" (10 characters,
the following space is not part of the removed text). -/
def stripAlerting (t : String) : String :=
  if strStartsWith t "[Alerting]" then strDrop t 10 else t

theorem stateIcon_alerting (t : String) :
    stateIcon "alerting" t = ("🔥", stripAlerting t) := rfl

/-! Concrete stubs for the external collaborators, used by witnesses and
counterexamples. -/

/-- An event with an unrecognized state and no attachment. -/
def evPlain : Event :=
  { state := "x", title := "t", message := "m", image := "", link := "", evalMatches := [] }

/-- The event of the end-to-end scenario of the spec. -/
def c2event : Event :=
  { state := "ok", title := "[OK] disk space", message := "Recovered",
    image := "", link := "", evalMatches := [] }

/-- The alert the handler actually builds for the scenario event: the icon
keeps the variation selector of the source literal and the title keeps the
separator space left over after slicing off "[OK]". -/
def c2alert : alert :=
  { message := "*☘️  disk space*\n\nRecovered\n\n", image := [] }

/-- An event whose imageUrl is non-empty. -/
def c7event : Event :=
  { state := "x", title := "t", message := "m", image := "http://img",
    link := "", evalMatches := [] }

/-- C1 counterexample: the alerts channel is created by make(chan *alert)
with no capacity argument, so its capacity is 0; a handler push finding no
receiver waiting (the Worker is mid network call, for instance) does not
complete immediately — the producer blocks until the Worker next reaches a
channel receive. This refutes the claim that the Delivery Channel is
unbounded and that a push never blocks the producer beyond allocation
time. -/
theorem unbuffered_send_blocks :
    alertsChanCap = 0 ∧
      sendCompletesImmediately alertsChanCap 0 false = false :=
  ⟨rfl, rfl⟩

/-- C1 (amended): the Delivery Channel is unbuffered (capacity 0), so a push
completes without blocking exactly when the Worker is already waiting in a
channel receive; once the handoff happens the handler responds with the
success status at once — the enqueue is immediately followed by the 200
response with no delivery action in between, so the response never waits for
delivery to be performed. -/
theorem channel_rendezvous_and_decoupled_response :
    alertsChanCap = 0
    ∧ (∀ (bufLen : Nat) (rw : Bool),
        sendCompletesImmediately alertsChanCap bufLen rw = rw)
    ∧ (∀ (decode : String → Except String Event) (g : String → GetOutcome)
        (body : String) (ev : Event), decode body = .ok ev →
        forwarderHandler decode g body =
          [HAct.enqueue (handlerAlert g ev), HAct.respond 200 ""]) := by
  refine ⟨rfl, ?_, ?_⟩
  · intro bufLen rw
    simp [sendCompletesImmediately, alertsChanCap]
  · intro decode g body ev h
    simp [forwarderHandler, h]

/-- Witness for C1 (amended) at a concrete decoder. -/
theorem channel_rendezvous_witness :
    ((fun _ => Except.ok evPlain : String → Except String Event) "b" = Except.ok evPlain)
    ∧ forwarderHandler (fun _ => Except.ok evPlain) (fun _ => GetOutcome.getErr "e") "b" =
        [HAct.enqueue (handlerAlert (fun _ => GetOutcome.getErr "e") evPlain),
         HAct.respond 200 ""] :=
  ⟨rfl, channel_rendezvous_and_decoupled_response.2.2 _ _ _ _ rfl⟩

/-- C2 counterexample: for the scenario event the code composes the text
with the variation selector U+FE0F after the shamrock and with two spaces
between icon and title (slicing off "[OK]" keeps the separator space), so
the composed text differs from the claimed "*☘ disk space*\n\nRecovered\n\n". -/
theorem scenario_text_differs :
    composeMessage c2event none = c2alert.message
    ∧ composeMessage c2event none ≠ "*☘ disk space*\n\nRecovered\n\n" :=
  ⟨rfl, by decide⟩

/-- C2 (amended): for the scenario body the handler enqueues the alert with
text "*☘️␣␣disk space*\n\nRecovered\n\n" (icon with variation selector, two
spaces, empty trailing link segment) and no image, and the Worker, on a
session whose calls all succeed, sends exactly that text via sendText to
each configured recipient in configured order. -/
theorem scenario_ok_disk_space (g : String → GetOutcome) (body : String)
    (tos : List String) :
    forwarderHandler (fun _ => Except.ok c2event) g body =
      [HAct.enqueue c2alert, HAct.respond 200 ""]
    ∧ publisher (fun _ => true) (fun _ => true) tos 0 0 [c2alert] =
        .connect :: (tos.map (fun rcpt => Ev.sendText rcpt c2alert.message true) ++ [.close]) := by
  constructor
  · rfl
  · simp only [publisher, drainAlerts, if_true, sendToRecipients_const_true]
    refine congrArg (Ev.connect :: ·) (congrArg (· ++ [Ev.close]) ?_)
    apply List.map_congr_left
    intro rcpt _
    rfl

/-- C3: for every webhook request, over every behavior of the external JSON
decoder and image fetcher: a decode error yields exactly a 400 response
carrying the parse-error text (http.Error appends a newline) and nothing is
enqueued, while a successful decode yields exactly one enqueued alert
followed by the 200 response with empty body. -/
theorem enqueue_iff_decode (decode : String → Except String Event)
    (g : String → GetOutcome) (body : String) :
    (∀ e, decode body = .error e →
      forwarderHandler decode g body = [HAct.respond 400 (e ++ "\n")])
    ∧ (∀ ev, decode body = .ok ev →
      forwarderHandler decode g body =
        [HAct.enqueue (handlerAlert g ev), HAct.respond 200 ""]) := by
  constructor <;> intro x h <;> simp [forwarderHandler, h]

/-- Witness for C3 at a concrete failing decoder. -/
theorem enqueue_iff_decode_witness :
    ((fun _ => Except.error "bad json" : String → Except String Event) "nojson" =
      Except.error "bad json")
    ∧ forwarderHandler (fun _ => Except.error "bad json")
        (fun _ => GetOutcome.getErr "e") "nojson" = [HAct.respond 400 ("bad json" ++ "\n")] :=
  ⟨rfl, (enqueue_iff_decode _ _ _).1 "bad json" rfl⟩

/-- C9: whenever the comma-split recipient-id list is empty or its length
differs from that of the comma-split public-key list, the startup sequence
ends in log.Fatalf — the process exits before the publisher is started and
before the HTTP route serves any request, whatever the external identity
loading and contact trusting do. -/
theorem startup_validation_fatal (identify : Except String Unit)
    (trust : String → String → Except String Unit) (toFlag pkFlag : String)
    (h : (splitComma toFlag).length = 0 ∨
      (splitComma toFlag).length ≠ (splitComma pkFlag).length) :
    ∃ m, forwarderStartup identify trust toFlag pkFlag = .fatal m := by
  cases identify with
  | error e => exact ⟨"Failed to load sender identity: " ++ e, rfl⟩
  | ok u =>
    by_cases h0 : (splitComma toFlag).length = 0
    · exact ⟨"No recpient IDs provided", by simp [forwarderStartup, h0]⟩
    · rcases h with h | h
      · exact absurd h h0
      · exact ⟨"Mismatchine recipient IDs and pubkeys", by simp [forwarderStartup, h0, h]⟩

/-- Witness for C9: two ids against one key is fatal at startup. -/
theorem startup_validation_fatal_witness :
    ((splitComma "a,b").length = 0 ∨
      (splitComma "a,b").length ≠ (splitComma "k").length)
    ∧ ∃ m, forwarderStartup (Except.ok ()) (fun _ _ => Except.ok ()) "a,b" "k" =
        StartupResult.fatal m :=
  ⟨Or.inr (by decide),
   startup_validation_fatal _ _ _ _ (Or.inr (by decide))⟩

/-- C4: FIFO delivery. For alerts A then B queued in that order (no
intervening drain), once the Worker connects, the trace is the connect, then
one send per recipient for A, then one send per recipient for B, then the
close: every delivery attempt of A precedes every attempt of B, and for each
alert the recipients are attempted exactly in configured list order (the
projected recipient sequence equals the configured list). -/
theorem fifo_delivery (connOk sendOk : Nat → Bool) (tos : List String)
    (A B : alert) (h : connOk 0 = true) :
    publisher connOk sendOk tos 0 0 [A, B] =
      .connect :: ((sendToRecipients sendOk 0 tos A).1 ++
        ((sendToRecipients sendOk (0 + tos.length) tos B).1 ++ [.close]))
    ∧ ((sendToRecipients sendOk 0 tos A).1).map Ev.sendToOf = tos.map some
    ∧ ((sendToRecipients sendOk (0 + tos.length) tos B).1).map Ev.sendToOf = tos.map some
    ∧ (∀ e ∈ (sendToRecipients sendOk 0 tos A).1, e.sendMsgOf = some A.message)
    ∧ (∀ e ∈ (sendToRecipients sendOk (0 + tos.length) tos B).1,
        e.sendMsgOf = some B.message) := by
  refine ⟨?_, sendToRecipients_map_to _ _ _ _, sendToRecipients_map_to _ _ _ _, ?_, ?_⟩
  · simp only [publisher, h, if_true, drainAlerts, sendToRecipients_snd]
  · intro e he
    rcases mem_sendToRecipients he with ⟨r, ok, hr, rfl⟩
    exact sendEv_sendMsgOf _ _ _
  · intro e he
    rcases mem_sendToRecipients he with ⟨r, ok, hr, rfl⟩
    exact sendEv_sendMsgOf _ _ _

/-- Witness for C4: a fully evaluated two-alert, two-recipient trace. -/
theorem fifo_delivery_witness :
    publisher (fun _ => true) (fun _ => true) ["r1", "r2"] 0 0
        [⟨"A", []⟩, ⟨"B", []⟩] =
      [.connect, .sendText "r1" "A" true, .sendText "r2" "A" true,
       .sendText "r1" "B" true, .sendText "r2" "B" true, .close] := by
  have h := (fifo_delivery (fun _ => true) (fun _ => true) ["r1", "r2"]
    ⟨"A", []⟩ ⟨"B", []⟩ rfl).1
  rw [h]; rfl

/-- C5: batch amortization and open-failure policy. When the connect
succeeds, two queued alerts are drained under a single connect/close pair:
the trace is one connect, then only send events, then one close — no
intermediate reconnect. When the connect fails, exactly the alert that
triggered it (A) is dropped: the Worker loops back to the channel, the next
connect drains B with the full recipient fan-out, and the process never
exits. -/
theorem batch_and_drop (connOk sendOk : Nat → Bool) (tos : List String)
    (A B : alert) :
    (connOk 0 = true →
      publisher connOk sendOk tos 0 0 [A, B] =
        .connect :: ((sendToRecipients sendOk 0 tos A).1 ++
          ((sendToRecipients sendOk (0 + tos.length) tos B).1 ++ [.close]))
      ∧ (∀ e ∈ (sendToRecipients sendOk 0 tos A).1 ++
            (sendToRecipients sendOk (0 + tos.length) tos B).1,
          e.isSend = true))
    ∧ (connOk 0 = false → connOk 1 = true →
      publisher connOk sendOk tos 0 0 [A, B] =
        .connectFail :: .connect :: ((sendToRecipients sendOk 0 tos B).1 ++ [.close])
      ∧ ((sendToRecipients sendOk 0 tos B).1).map Ev.sendToOf = tos.map some) := by
  constructor
  · intro h
    refine ⟨?_, ?_⟩
    · simp only [publisher, h, if_true, drainAlerts, sendToRecipients_snd]
    · intro e he
      rcases List.mem_append.1 he with he | he <;>
        · rcases mem_sendToRecipients he with ⟨r, ok, hr, rfl⟩
          exact sendEv_isSend _ _ _
  · intro h0 h1
    refine ⟨?_, sendToRecipients_map_to _ _ _ _⟩
    simp only [publisher, h0, h1, if_true, Bool.false_eq_true, if_false, drainAlerts]

/-- Witness for C5: both branches at one recipient; all sends succeed. -/
theorem batch_and_drop_witness :
    publisher (fun _ => true) (fun _ => true) ["r"] 0 0 [⟨"A", []⟩, ⟨"B", []⟩] =
      [.connect, .sendText "r" "A" true, .sendText "r" "B" true, .close]
    ∧ publisher (fun n => n != 0) (fun _ => true) ["r"] 0 0 [⟨"A", []⟩, ⟨"B", []⟩] =
      [.connectFail, .connect, .sendText "r" "B" true, .close] := by
  constructor
  · have h := ((batch_and_drop (fun _ => true) (fun _ => true) ["r"]
      ⟨"A", []⟩ ⟨"B", []⟩).1 rfl).1
    rw [h]; rfl
  · have h := ((batch_and_drop (fun n => n != 0) (fun _ => true) ["r"]
      ⟨"A", []⟩ ⟨"B", []⟩).2 rfl rfl).1
    rw [h]; rfl

/-- C6: per-recipient failure isolation. For any per-send outcomes (including
any subset of recipients failing), the drained alert produces exactly one
send attempt per configured recipient, in configured order, all carrying the
alert text; the session close happens only once, after the last recipient;
and no further send of the alert ever occurs (no requeue or re-delivery). -/
theorem send_failure_isolation (connOk sendOk : Nat → Bool) (tos : List String)
    (a : alert) (h : connOk 0 = true) :
    publisher connOk sendOk tos 0 0 [a] =
      .connect :: ((sendToRecipients sendOk 0 tos a).1 ++ [.close])
    ∧ ((sendToRecipients sendOk 0 tos a).1).map Ev.sendToOf = tos.map some
    ∧ ((sendToRecipients sendOk 0 tos a).1).length = tos.length
    ∧ (∀ e ∈ (sendToRecipients sendOk 0 tos a).1,
        e.sendMsgOf = some a.message ∧ e ≠ Ev.close) := by
  refine ⟨?_, sendToRecipients_map_to _ _ _ _, sendToRecipients_length _ _ _ _, ?_⟩
  · simp only [publisher, h, if_true, drainAlerts]
  · intro e he
    rcases mem_sendToRecipients he with ⟨r, ok, hr, rfl⟩
    exact ⟨sendEv_sendMsgOf _ _ _, sendEv_ne_close _ _ _⟩

/-- Witness for C6: recipient 2 of 3 fails, recipients 1 and 3 still get the
send, the session is closed once at the end, and the alert is sent exactly
three times. -/
theorem send_failure_isolation_witness :
    publisher (fun _ => true) (fun n => n != 1) ["r1", "r2", "r3"] 0 0 [⟨"A", []⟩] =
      [.connect, .sendText "r1" "A" true, .sendText "r2" "A" false,
       .sendText "r3" "A" true, .close] := by
  have h := (send_failure_isolation (fun _ => true) (fun n => n != 1)
    ["r1", "r2", "r3"] ⟨"A", []⟩ rfl).1
  rw [h]; rfl

/-- C7 counterexample: a fetch that fails partway through the body read
(http.Get succeeded, ioutil.ReadAll returned the bytes read so far together
with an error) leads to an enqueued alert that carries BOTH the visible
failure notice in its text AND a non-empty image: the image field is not
absent on this failed fetch, refuting the claimed equivalence between image
presence and fetch success. -/
theorem partial_read_image_present :
    forwarderHandler (fun _ => Except.ok c7event)
        (fun _ => GetOutcome.gotBody [7] (some "unexpected EOF")) "b" =
      [HAct.enqueue { message := "*x t*\n\nFailed to attach image: unexpected EOF\n\nm\n\n",
                      image := [7] },
       HAct.respond 200 ""]
    ∧ ([7] : List Nat) ≠ [] :=
  ⟨rfl, by decide⟩

/-- C7 (amended): a failed image fetch never aborts the request — the alert
is enqueued and the 200 returned, with the failure notice inserted between
the header and the body text. When http.Get itself fails the image is
absent; when the body read fails partway, the enqueued image holds the bytes
read before the failure, so the image can be non-empty even though the fetch
failed; the image holds the full attachment exactly when no error
occurred. -/
theorem attachment_fetch_degradation (decode : String → Except String Event)
    (g : String → GetOutcome) (body : String) (ev : Event)
    (hok : decode body = .ok ev) (himg : ev.image.length ≠ 0) :
    forwarderHandler decode g body =
      [HAct.enqueue (handlerAlert g ev), HAct.respond 200 ""]
    ∧ (∀ e, g ev.image = .getErr e →
        handlerAlert g ev =
          { message := headerOf ev ++ (noticeOf (some e) ++ tailOf ev), image := [] })
    ∧ (∀ bs e, g ev.image = .gotBody bs (some e) →
        handlerAlert g ev =
          { message := headerOf ev ++ (noticeOf (some e) ++ tailOf ev), image := bs })
    ∧ (∀ bs, g ev.image = .gotBody bs none →
        handlerAlert g ev =
          { message := headerOf ev ++ (noticeOf none ++ tailOf ev), image := bs }) := by
  refine ⟨by simp [forwarderHandler, hok], ?_, ?_, ?_⟩
  · intro e hge
    simp [handlerAlert, himg, fetchImage, hge, composeMessage_decomp]
  · intro bs e hge
    simp [handlerAlert, himg, fetchImage, hge, composeMessage_decomp]
  · intro bs hge
    simp [handlerAlert, himg, fetchImage, hge, composeMessage_decomp]

/-- Witness for C7 (amended): a concrete Get failure leaves the image absent
and puts the notice into the text. -/
theorem attachment_fetch_degradation_witness :
    c7event.image.length ≠ 0
    ∧ handlerAlert (fun _ => GetOutcome.getErr "boom") c7event =
        { message := headerOf c7event ++ (noticeOf (some "boom") ++ tailOf c7event),
          image := [] } :=
  ⟨by decide,
   (attachment_fetch_degradation (fun _ => Except.ok c7event)
     (fun _ => GetOutcome.getErr "boom") "b" c7event rfl (by decide)).2.1 "boom" rfl⟩

/-- C8 counterexample: for state "alerting" and title "[Alerting] CPU high"
the composed message keeps the separator space of the title (the code slices
off only the 10 bytes of "[Alerting]", not the trailing space), so the header
shows two spaces and is not the header from removing "[Alerting] " once; and
stripping applied to an already-stripped title can strip again when the
remainder itself begins with "[Alerting]". -/
theorem title_strip_space_refuted :
    composeMessage
        { state := "alerting", title := "[Alerting] CPU high",
          message := "M", image := "", link := "", evalMatches := [] } none =
      "*🔥  CPU high*\n\nM\n\n"
    ∧ composeMessage
        { state := "alerting", title := "[Alerting] CPU high",
          message := "M", image := "", link := "", evalMatches := [] } none ≠
      "*🔥 CPU high*\n\nM\n\n"
    ∧ stripAlerting (stripAlerting "[Alerting][Alerting] CPU") ≠
        stripAlerting "[Alerting][Alerting] CPU" :=
  ⟨rfl, by decide, by decide⟩

/-- C8 (amended): the composition strips exactly the literal "[Alerting]" —
10 characters, case-sensitively, anchored at the start of the title, without
the following space, which therefore stays in the header — once per request;
a title not beginning with "[Alerting]" is left completely untouched; and a
second application strips nothing further provided the once-stripped title
does not itself begin with "[Alerting]". -/
theorem title_strip_exact (t m l : String) :
    composeMessage
        { state := "alerting", title := t, message := m,
          image := "", link := l, evalMatches := [] } none =
      "*" ++ "🔥" ++ " " ++ stripAlerting t ++ "*\n\n" ++ m ++ "\n\n" ++ l
    ∧ (strStartsWith t "[Alerting]" = true → stripAlerting t = strDrop t 10)
    ∧ (strStartsWith t "[Alerting]" = false → stripAlerting t = t)
    ∧ (strStartsWith (stripAlerting t) "[Alerting]" = false →
        stripAlerting (stripAlerting t) = stripAlerting t) := by
  refine ⟨?_, ?_, ?_, ?_⟩
  · simp only [composeMessage, stateIcon_alerting, List.foldl_nil, List.length_nil,
      gt_iff_lt, Nat.lt_irrefl, if_false, reduceIte]
  · intro h; simp [stripAlerting, h]
  · intro h; simp [stripAlerting, h]
  · intro h
    simp only [stripAlerting] at h ⊢
    simp [h]

/-- Witness for C8 (amended): the example title loses exactly "[Alerting]"
and keeps the space; a prefix-free title is untouched; re-stripping the
stripped example changes nothing. -/
theorem title_strip_exact_witness :
    stripAlerting "[Alerting] CPU high" = " CPU high"
    ∧ stripAlerting "CPU high" = "CPU high"
    ∧ stripAlerting (stripAlerting "[Alerting] CPU high") =
        stripAlerting "[Alerting] CPU high" := by
  refine ⟨?_, ?_, ?_⟩
  · have h := (title_strip_exact "[Alerting] CPU high" "M" "").2.1 (by decide)
    rw [h]; decide
  · exact (title_strip_exact "CPU high" "M" "").2.2.1 (by decide)
  · exact (title_strip_exact "[Alerting] CPU high" "M" "").2.2.2 (by decide)

/-- C10: the Worker picks the send operation by the LENGTH of the image
bytes, not by their presence: every send event of a zero-image alert is a
text send, every send event of a non-empty-image alert is an image send that
passes the image bytes with the composed message as the caption; and a fetch
that succeeds with zero bytes yields an alert whose image is empty — hence
delivered with sendText. -/
theorem image_send_by_length :
    (∀ (f : Nat → Bool) (n : Nat) (tos : List String) (a : alert),
      a.image.length = 0 →
        ∀ e ∈ (sendToRecipients f n tos a).1,
          e.isSendImage = false ∧ e.isSend = true ∧ e.sendMsgOf = some a.message)
    ∧ (∀ (f : Nat → Bool) (n : Nat) (tos : List String) (a : alert),
      0 < a.image.length →
        ∀ e ∈ (sendToRecipients f n tos a).1,
          e.isSendImage = true ∧ e.sendImgOf = some a.image
            ∧ e.sendMsgOf = some a.message)
    ∧ (∀ (decode : String → Except String Event) (g : String → GetOutcome)
        (body : String) (ev : Event), decode body = .ok ev →
        ev.image.length ≠ 0 → g ev.image = .gotBody [] none →
        handlerAlert g ev = { message := composeMessage ev none, image := [] }) := by
  refine ⟨?_, ?_, ?_⟩
  · intro f n tos a h e he
    rcases mem_sendToRecipients he with ⟨r, ok, hr, rfl⟩
    simp [sendEv, h, Ev.isSendImage, Ev.isSend, Ev.sendMsgOf]
  · intro f n tos a h e he
    rcases mem_sendToRecipients he with ⟨r, ok, hr, rfl⟩
    simp [sendEv, h, Ev.isSendImage, Ev.sendImgOf, Ev.sendMsgOf]
  · intro decode g body ev hok himg hget
    simp [handlerAlert, himg, fetchImage, hget]

/-- Witness for C10: a zero-image alert is delivered by text sends only. -/
theorem image_send_by_length_witness :
    ((⟨"m", []⟩ : alert).image.length = 0)
    ∧ (∀ e ∈ (sendToRecipients (fun _ => true) 0 ["r1"] ⟨"m", []⟩).1,
        e.isSendImage = false ∧ e.isSend = true ∧ e.sendMsgOf = some "m") :=
  ⟨rfl, image_send_by_length.1 (fun _ => true) 0 ["r1"] ⟨"m", []⟩ rfl⟩

end GTF
